import Mathlib

/-!
Verification of the scheduler / dispatcher / comm-task coordination subsystem
of the ArangoDB HTTP front end, against its specification.

Shallow embedding: each C++ class that the claims mention is translated into a
Lean structure, and each method into a pure function from the old state to the
new state together with an explicit list of observable effects (calls into
collaborator objects such as the CommTask, the AsyncJobManager or the event
loop).  Machine pointers become `Option Nat` (a `none` is a null pointer, a
`some i` is a pointer identified by `i`); exceptions become `Except`.

Sources embedded:
  * arangod/HttpServer/HttpServerJob.cpp (constructor, destructor, isDetached,
    work, cleanup, beginShutdown)
  * the SchedulerThread (registerTask and the run loop)
  * lib/Basics/WorkMonitor.cpp and the WorkMonitor handler operations
    (pushHandler, popHandler, destroyHandler, releaseHandler,
    deleteWorkDescription)
  * arangod/RestHandler/RestDebugHelperHandler.cpp (execute)
-/

namespace ArangoModel

-- ---------------------------------------------------------------------------
-- HttpServerJob (arangod/HttpServer/HttpServerJob.cpp)
-- ---------------------------------------------------------------------------

/-- Observable effect of an `HttpServerJob` method: a call out of the job into
one of its collaborators.  `setHandler h` and `signal` are calls on the
associated `HttpCommTask`; `finishAsyncJob` is the publication of the job into
the `AsyncJobManager`; `removeJob` is the call on the `DispatcherQueue`;
`releaseHandler h` is the destructor's `WorkMonitor::releaseHandler`;
`deleteJob` marks `delete this`. -/
inductive JobEffect where
  | finishAsyncJob : JobEffect
  | setHandler : Nat → JobEffect
  | signal : JobEffect
  | removeJob : JobEffect
  | releaseHandler : Nat → JobEffect
  | deleteJob : JobEffect
  deriving DecidableEq, Repr

/-- State of an `HttpServerJob`: the `_handler` pointer, the `_task` pointer,
the `_refCount`, the `_isInCleanup` flag and the `_isDetached` flag. -/
structure HttpServerJob where
  handler : Option Nat
  task : Option Nat
  refCount : Int
  isInCleanup : Bool
  isDetached : Bool
  deriving DecidableEq, Repr

/-- `HttpServerJob::HttpServerJob(server, handler, task)`: stores the handler
and the task, sets `_refCount` to 1 when `task == nullptr` and to 2 otherwise,
clears `_isInCleanup`, and sets `_isDetached` to `task == nullptr`.  The
`server` and `handler` arguments are asserted non-null in the source, so the
handler is a plain `Nat` here. -/
def mkHttpServerJob (handler : Nat) (task : Option Nat) : HttpServerJob :=
  { handler := some handler
    task := task
    refCount := if task = none then 1 else 2
    isInCleanup := false
    isDetached := task = none }

/-- `HttpServerJob::~HttpServerJob()`: if the handler pointer is still set,
release it through `WorkMonitor::releaseHandler`. -/
def HttpServerJob.destruct (j : HttpServerJob) : List JobEffect :=
  match j.handler with
  | some h => [JobEffect.releaseHandler h]
  | none => []

/-- Result of `cleanup` or `beginShutdown`: the job state afterwards, whether
`delete this` ran, and the effect trace (destructor effects included when the
job was deleted). -/
structure JobCallResult where
  job : HttpServerJob
  deleted : Bool
  effects : List JobEffect
  deriving DecidableEq, Repr

/-- Shared refcount epilogue of `cleanup` and `beginShutdown`:
`if (--_refCount == 0) delete this;`. -/
def HttpServerJob.dropRef (j : HttpServerJob) (eff : List JobEffect) :
    JobCallResult :=
  let j' := { j with refCount := j.refCount - 1 }
  if j'.refCount = 0 then
    { job := j', deleted := true
      effects := eff ++ [JobEffect.deleteJob] ++ j'.destruct }
  else
    { job := j', deleted := false, effects := eff }

/-- `HttpServerJob::cleanup(queue)`: detached jobs are published via
`_server->jobManager()->finishAsyncJob(this)` (an external collaborator,
recorded as an effect); otherwise `_isInCleanup` is set, and if `_task` is
non-null the handler is moved into the task (`_task->setHandler(_handler);
_handler = nullptr; _task->signal();`), then `_isInCleanup` is cleared.
Finally `queue->removeJob(this)` runs and the refcount is dropped. -/
def HttpServerJob.cleanup (j : HttpServerJob) : JobCallResult :=
  if j.isDetached then
    HttpServerJob.dropRef j [JobEffect.finishAsyncJob, JobEffect.removeJob]
  else
    match j.task with
    | some _ =>
        let handoff :=
          match j.handler with
          | some h => [JobEffect.setHandler h, JobEffect.signal]
          | none => [JobEffect.signal]
        let j' := { j with handler := none, isInCleanup := false }
        HttpServerJob.dropRef j' (handoff ++ [JobEffect.removeJob])
    | none =>
        HttpServerJob.dropRef { j with isInCleanup := false }
          [JobEffect.removeJob]

/-- `HttpServerJob::beginShutdown()` (sequential view): after the spin on
`_isInCleanup` has finished, `_task = nullptr` and the refcount is dropped.
The interleaving of the spin with a concurrent `cleanup` is modelled
separately by `JobStep` below. -/
def HttpServerJob.beginShutdown (j : HttpServerJob) : JobCallResult :=
  HttpServerJob.dropRef { j with task := none } []

-- ---------------------------------------------------------------------------
-- HttpServerJob::work (arangod/HttpServer/HttpServerJob.cpp, lines 118-150)
-- ---------------------------------------------------------------------------

/-- Status a job's `work` returns (`Job::status_t`). Only `JOB_DONE` is
distinguished by the claims; other statuses come out of the handler's
`execute`. -/
inductive JobStatus where
  | done : JobStatus
  | failed : JobStatus
  | requeue : JobStatus
  deriving DecidableEq, Repr

/-- Trace events of `HttpServerJob::work`: construction/destruction of the
`HandlerWorkStack` (which pushes/pops the handler on the WorkMonitor stack)
and the three handler phases. -/
inductive WorkEvent where
  | wsPush : WorkEvent
  | prepareExecute : WorkEvent
  | execute : WorkEvent
  | finalizeExecute : WorkEvent
  | wsPop : WorkEvent
  deriving DecidableEq, Repr

/-- Result of `HttpServerJob::work`: the returned status (or the propagated
exception, as `Except.error`) and the trace of handler calls. -/
structure WorkResult where
  result : Except Unit JobStatus
  events : List WorkEvent
  deriving Repr

/-- `HttpServerJob::work()`: constructs a `HandlerWorkStack` (push, and pop on
scope exit even when an exception propagates), returns `JOB_DONE` early when
the job is not detached and `_task` is already null, and otherwise runs
`prepareExecute`, `execute` (whose outcome is the parameter `execOutcome`:
`Except.error ()` models a thrown exception) and `finalizeExecute` — the
latter also on the exception path, before rethrowing. -/
def HttpServerJob.work (j : HttpServerJob)
    (execOutcome : Except Unit JobStatus) : WorkResult :=
  if ¬ j.isDetached ∧ j.task = none then
    { result := Except.ok JobStatus.done
      events := [WorkEvent.wsPush, WorkEvent.wsPop] }
  else
    match execOutcome with
    | Except.error e =>
        { result := Except.error e
          events := [WorkEvent.wsPush, WorkEvent.prepareExecute,
                     WorkEvent.execute, WorkEvent.finalizeExecute,
                     WorkEvent.wsPop] }
    | Except.ok s =>
        { result := Except.ok s
          events := [WorkEvent.wsPush, WorkEvent.prepareExecute,
                     WorkEvent.execute, WorkEvent.finalizeExecute,
                     WorkEvent.wsPop] }

-- ---------------------------------------------------------------------------
-- Interleaving of HttpServerJob::cleanup and HttpServerJob::beginShutdown
-- (arangod/HttpServer/HttpServerJob.cpp, lines 164-204)
-- ---------------------------------------------------------------------------

/-- Program counter of the thread running `cleanup` on a non-detached job:
`store(_isInCleanup, true)`; the `_task != nullptr` check; the
`_task->setHandler(_handler); _handler = nullptr;` move; `_task->signal()`;
`store(_isInCleanup, false)`. -/
inductive CleanupPc where
  | setFlag : CleanupPc
  | checkTask : CleanupPc
  | setHandler : CleanupPc
  | signal : CleanupPc
  | clearFlag : CleanupPc
  | finished : CleanupPc
  deriving DecidableEq, Repr

/-- Program counter of the thread running `beginShutdown`:
the `while (_isInCleanup.load()) usleep(1000);` spin, then `_task = nullptr`. -/
inductive ShutdownPc where
  | spin : ShutdownPc
  | nullTask : ShutdownPc
  | finished : ShutdownPc
  deriving DecidableEq, Repr

/-- Shared state of the two threads racing on one non-detached job: the
`_task` and `_handler` pointers, the `_isInCleanup` flag, and the two program
counters. -/
structure JobRaceState where
  task : Option Nat
  handler : Option Nat
  isInCleanup : Bool
  pcC : CleanupPc
  pcB : ShutdownPc
  deriving DecidableEq, Repr

/-- Successor states of one atomic statement of either thread, read off the
source line by line.  The spin re-loads `_isInCleanup` each iteration: a true
load self-loops, a false load falls through to the nulling statement. -/
def jobRaceNext (s : JobRaceState) : List JobRaceState :=
  (match s.pcC with
   | CleanupPc.setFlag => [{ s with isInCleanup := true, pcC := CleanupPc.checkTask }]
   | CleanupPc.checkTask =>
       if s.task = none then [{ s with pcC := CleanupPc.clearFlag }]
       else [{ s with pcC := CleanupPc.setHandler }]
   | CleanupPc.setHandler => [{ s with handler := none, pcC := CleanupPc.signal }]
   | CleanupPc.signal => [{ s with pcC := CleanupPc.clearFlag }]
   | CleanupPc.clearFlag => [{ s with isInCleanup := false, pcC := CleanupPc.finished }]
   | CleanupPc.finished => []) ++
  (match s.pcB with
   | ShutdownPc.spin =>
       if s.isInCleanup then [s]
       else [{ s with pcB := ShutdownPc.nullTask }]
   | ShutdownPc.nullTask => [{ s with task := none, pcB := ShutdownPc.finished }]
   | ShutdownPc.finished => [])

/-- One interleaved step: either thread executes its next atomic statement. -/
def JobStep (s s' : JobRaceState) : Prop := s' ∈ jobRaceNext s

instance (s s' : JobRaceState) : Decidable (JobStep s s') := by
  unfold JobStep; infer_instance

/-- Initial state of the race: the job still holds its handler and task, the
flag is clear, `cleanup` is about to set the flag and `beginShutdown` is at
the top of its spin. -/
def jobRaceInit (t h : Nat) : JobRaceState :=
  { task := some t, handler := some h, isInCleanup := false
    pcC := CleanupPc.setFlag, pcB := ShutdownPc.spin }

/-- Reachability in the interleaved step relation. -/
def JobReachable (s s' : JobRaceState) : Prop :=
  Relation.ReflTransGen JobStep s s'

-- ---------------------------------------------------------------------------
-- SchedulerThread (scheduler thread source: registerTask and run)
-- ---------------------------------------------------------------------------

namespace SchedulerThread

/-- Kind of a queued `Work` item (`SETUP`, `CLEANUP`, `DESTROY`, `INVALID`). -/
inductive WorkKind where
  | setup : WorkKind
  | cleanup : WorkKind
  | destroy : WorkKind
  | invalid : WorkKind
  deriving DecidableEq, Repr

/-- A cross-thread command queue entry `{op, scheduler, task}`. -/
structure Work where
  work : WorkKind
  scheduler : Option Nat
  task : Nat
  deriving DecidableEq, Repr

/-- SchedulerThread state relevant to `registerTask`: the `_stopped` flag, the
command `_queue`, the `_hasWork` flag and `_numberTasks`. -/
structure State where
  stopped : Bool
  queue : List Work
  hasWork : Bool
  numberTasks : Int
  deriving DecidableEq, Repr

/-- Observable effects of `registerTask`: the inline `setupTask` attempt,
`cleanupTask`, `deleteTask`, and `scheduler->wakeupLoop(_loop)`. -/
inductive Effect where
  | setupTask : Nat → Effect
  | cleanupTask : Nat → Effect
  | deleteTask : Nat → Effect
  | wakeupLoop : Effect
  deriving DecidableEq, Repr

/-- Result of `registerTask`: new state, returned boolean, effect trace. -/
structure RegisterResult where
  state : State
  returned : Bool
  effects : List Effect
  deriving DecidableEq, Repr

/-- `SchedulerThread::registerTask(scheduler, task)`: returns false and does
nothing when `_stopped`; when called from the loop's own thread
(`threadId() == currentThreadId()`, the parameter `sameThread`), runs
`setupTask` inline — on success increments `_numberTasks`, on failure runs
`cleanupTask` and `deleteTask` — and returns the setup result; otherwise
pushes `Work(SETUP, scheduler, task)` under the queue lock, sets `_hasWork`,
wakes the loop and returns true.  `setupOk` is the outcome of the external
`setupTask` call. -/
def registerTask (st : State) (sameThread : Bool) (setupOk : Bool)
    (scheduler task : Nat) : RegisterResult :=
  if st.stopped then
    { state := st, returned := false, effects := [] }
  else if sameThread then
    if setupOk then
      { state := { st with numberTasks := st.numberTasks + 1 }
        returned := true, effects := [Effect.setupTask task] }
    else
      { state := st, returned := false
        effects := [Effect.setupTask task, Effect.cleanupTask task,
                    Effect.deleteTask task] }
  else
    { state := { st with
                  queue := st.queue ++ [⟨WorkKind.setup, some scheduler, task⟩]
                  hasWork := true }
      returned := true
      effects := [Effect.wakeupLoop] }

/-- How one pass of the scheduler run loop body ends.  Each list element is
one iteration's observations `(stopAtTop, pollRaises, stopAtCatch)`:
the `!_stopping.load()` check at the top of the `while`, whether
`_scheduler->eventLoop(_loop)` throws, and the `_stopping.load()` read inside
the `catch`.  `stopExit` is the normal exit through the `while` condition,
`exnPropagated` is the rethrow of a cancelation exception, `fuelOut` means
the supplied observations were exhausted with the loop still running. -/
inductive RunEnd where
  | stopExit : RunEnd
  | exnPropagated : RunEnd
  | fuelOut : RunEnd
  deriving DecidableEq, Repr

/-- The main `while (!_stopping.load())` loop of `SchedulerThread::run`
(command-queue draining after the poll is internal to an iteration and not
observed here).  A poll exception is caught; if `_stopping` is set at that
point the exception is rethrown (terminating the thread), otherwise it is
logged and the iteration completes, so the loop retries.  Returns how the
loop ended and how many iterations completed. -/
def runLoop : List (Bool × Bool × Bool) → RunEnd × Nat
  | [] => (RunEnd.fuelOut, 0)
  | (stopAtTop, pollRaises, stopAtCatch) :: rest =>
      if stopAtTop then (RunEnd.stopExit, 0)
      else if pollRaises && stopAtCatch then (RunEnd.exnPropagated, 0)
      else
        let r := runLoop rest
        (r.1, r.2 + 1)

end SchedulerThread

-- ---------------------------------------------------------------------------
-- WorkMonitor (lib/Basics/WorkMonitor.cpp and the handler operations)
-- ---------------------------------------------------------------------------

namespace WorkMonitor

/-- `WorkType`: a WorkDescription is tagged as a thread or a handler node. -/
inductive WorkType where
  | thread : WorkType
  | handler : WorkType
  deriving DecidableEq, Repr

/-- A `WorkDescription` node: its `_type` tag, its `_destroy` flag and its
`_data.handler` payload (the handler pointer; `none` for thread nodes).  The
`_prev` link is represented positionally: the per-thread chain is the list in
`ThreadState.stack`, head first. -/
structure WorkDescription where
  wtype : WorkType
  destroy : Bool
  handler : Option Nat
  deriving DecidableEq, Repr

/-- Modelled from the spec: `Thread::workDescription`, `setWorkDescription`
and `setPrevWorkDescription` (lib/Basics/Thread, not in src) maintain the
per-thread linked stack of WorkDescriptions ("Per thread, a linked stack of
WorkDescriptions"); here the chain of `_prev` links of the current thread is
the list `stack` with the current description at the head, and the
`FREEABLE_WORK_DESCRIPTION` lock-free queue is the list `freeable` in push
order. -/
structure ThreadState where
  stack : List WorkDescription
  freeable : List WorkDescription
  deriving DecidableEq, Repr

/-- `WorkMonitor::createWorkDescription(type)`: obtains a description (from
the `EMPTY_WORK_DESCRIPTION` pool or freshly allocated), in either case with
`_type` set to the argument, `_destroy` set to true and `_prev` set to the
current thread's work description (the existing stack). -/
def createWorkDescription (t : WorkType) : WorkDescription :=
  { wtype := t, destroy := true, handler := none }

/-- `WorkMonitor::pushHandler(handler)`: create a HANDLER description, store
the handler in `_data.handler`, and activate it (it becomes the thread's
current work description, its `_prev` the old one). -/
def pushHandler (st : ThreadState) (h : Nat) : ThreadState :=
  { st with stack := { createWorkDescription WorkType.handler with
                        handler := some h } :: st.stack }

/-- Outcome of `popHandler` / `destroyHandler`: whether the two `TRI_ASSERT`s
(description non-null, and `desc->_data.handler == handler`) passed, and the
thread state afterwards. -/
structure PopResult where
  assertionsPassed : Bool
  state : ThreadState
  deriving DecidableEq, Repr

/-- `WorkMonitor::popHandler(handler)`: deactivate the current description
(restoring its `_prev` as current), assert it is non-null and holds exactly
this handler, clear its `_destroy` flag, and push it onto the freeable
queue. -/
def popHandler (st : ThreadState) (h : Nat) : PopResult :=
  match st.stack with
  | [] => { assertionsPassed := false, state := st }
  | d :: rest =>
      { assertionsPassed := d.handler = some h
        state := { stack := rest
                   freeable := st.freeable ++ [{ d with destroy := false }] } }

/-- `WorkMonitor::destroyHandler(handler)`: like `popHandler` but leaves the
`_destroy` flag as it is (true, as set at creation). -/
def destroyHandler (st : ThreadState) (h : Nat) : PopResult :=
  match st.stack with
  | [] => { assertionsPassed := false, state := st }
  | d :: rest =>
      { assertionsPassed := d.handler = some h
        state := { stack := rest, freeable := st.freeable ++ [d] } }

/-- `WorkMonitor::releaseHandler(handler)`: create a fresh HANDLER
description holding the handler (with `_destroy` true from creation) and push
it straight onto the freeable queue, without touching the thread's stack. -/
def releaseHandler (st : ThreadState) (h : Nat) : ThreadState :=
  { st with freeable := st.freeable ++
      [{ createWorkDescription WorkType.handler with handler := some h }] }

/-- `deleteWorkDescription(desc)` (the monitor thread's sweep on one freeable
description): when `_destroy` is set and the node is a HANDLER node, invoke
the handler deleter (`WorkMonitor::DELETE_HANDLER`, which deletes
`_data.handler`); in every case the description itself is recycled onto the
`EMPTY_WORK_DESCRIPTION` pool.  Returns the handler the deleter was invoked
on, if any. -/
def deleteWorkDescription (d : WorkDescription) : Option Nat :=
  if d.destroy then
    match d.wtype with
    | WorkType.thread => none
    | WorkType.handler => d.handler
  else none

/-- The monitor thread's drain of the freeable queue: sweep every queued
description in order; result is the list of handlers whose deleter ran. -/
def sweep (l : List WorkDescription) : List Nat :=
  l.filterMap deleteWorkDescription

end WorkMonitor

-- ---------------------------------------------------------------------------
-- RestDebugHelperHandler (arangod/RestHandler/RestDebugHelperHandler.cpp)
-- ---------------------------------------------------------------------------

namespace RestDebugHelper

/-- A JSON / VelocyPack scalar value as placed into the response body. -/
inductive JsonValue where
  | str : String → JsonValue
  | num : ℚ → JsonValue
  | bool : Bool → JsonValue
  deriving DecidableEq, Repr

/-- Modelled from the spec: `HttpRequest::value(key, found)` (Rest/HttpRequest,
not in src) looks the key up among the request's URL parameters, setting
`found` accordingly; an absent key yields the empty string. -/
def requestValue (params : List (String × String)) (key : String) :
    Bool × String :=
  match params.lookup key with
  | some v => (true, v)
  | none => (false, "")

/-- One decimal digit. -/
def decDigit (c : Char) : Option Nat :=
  if c.isDigit then some (c.toNat - 48) else none

/-- Leading run of decimal digits of a character list, and the rest. -/
def takeDigits : List Char → List Nat × List Char
  | [] => ([], [])
  | c :: cs =>
      match decDigit c with
      | some d => let (ds, rest) := takeDigits cs; (d :: ds, rest)
      | none => ([], c :: cs)

/-- Modelled from the spec: `StringUtils::doubleDecimal` (lib/Basics/StringUtils,
not in src) parses a decimal numeral — an integer part optionally followed by
a point and a fraction part — into a number; unparsable input yields 0.
Exact rational arithmetic stands in for the C++ double, which is exact on the
inputs the claims evaluate. -/
def doubleDecimal (s : String) : ℚ :=
  let (ip, rest) := takeDigits s.data
  let intPart : ℚ := (ip.foldl (fun a d => 10 * a + d) 0 : Nat)
  match rest with
  | '.' :: rest' =>
      let (fp, _) := takeDigits rest'
      intPart + ((fp.foldl (fun a d => 10 * a + d) 0 : Nat) : ℚ) / 10 ^ fp.length
  | _ => intPart

/-- Modelled from the spec: `StringUtils::boolean` (lib/Basics/StringUtils,
not in src) recognises the usual truthy spellings. -/
def stringBoolean (s : String) : Bool :=
  s = "true" || s = "yes" || s = "on" || s = "y" || s = "1"

/-- `static_cast<unsigned long>` applied to a non-negative double: truncation
toward zero. -/
def ratToULong (q : ℚ) : Nat := q.num.toNat / q.den

/-- An HTTP response: status code and JSON body (an object, in field order). -/
structure Response where
  status : Nat
  body : List (String × JsonValue)
  deriving DecidableEq, Repr

/-- Result of `RestDebugHelperHandler::execute`: the generated response, the
returned handler status (`HANDLER_DONE`, the only value this handler
returns), the microseconds slept and whether the dispatcher thread was
blocked around the sleep. -/
structure ExecResult where
  response : Response
  handlerDone : Bool
  sleptMicros : Nat
  blocked : Bool
  deriving DecidableEq, Repr

/-- `RestDebugHelperHandler::execute()`: reads the `sleep` parameter, scales
it by 10^6 and truncates to an unsigned integer `s`; reads the `block`
parameter (`block` is true only when the parameter is present and truthy);
blocks/unblocks the dispatcher thread around a `usleep(s)` when applicable;
then builds the response object `{server: "arango", version: TRI_VERSION,
sleep: s / 1000000.0, block: block}` in that order and hands it to
`generateResult` — modelled from the spec: `RestBaseHandler::generateResult`
(not in src) wraps a body in a 200 OK response ("expected 200 with JSON").
`TRI_VERSION` is the build's version string, the parameter `version`. -/
def execute (params : List (String × String)) (version : String) : ExecResult :=
  let sleepStr := (requestValue params "sleep").2
  let s : Nat := ratToULong (doubleDecimal sleepStr * 1000000)
  let blockPair := requestValue params "block"
  let block := blockPair.1 && stringBoolean blockPair.2
  { response :=
      { status := 200
        body := [("server", JsonValue.str "arango"),
                 ("version", JsonValue.str version),
                 ("sleep", JsonValue.num ((s : ℚ) / 1000000)),
                 ("block", JsonValue.bool block)] }
    handlerDone := true
    sleptMicros := s
    blocked := block }

end RestDebugHelper

-- ---------------------------------------------------------------------------
-- Theorems
-- ---------------------------------------------------------------------------

/-- C1: For every non-detached `HttpServerJob`, `cleanup` publishes nothing to
the `AsyncJobManager`; if the task pointer is non-null at cleanup, cleanup
moves the handler into the CommTask (its first two effects are
`setHandler h` then `signal`, and the job's handler field becomes null); if
the task pointer is null, cleanup performs no handoff and no signal, keeps
the handler, and the handler is released when the job is destroyed (by this
very call when it drops the last reference, otherwise by the job's
destructor).  For every detached `HttpServerJob`, cleanup publishes the job
into the `AsyncJobManager` via `finishAsyncJob` and never touches a task. -/
theorem cleanup_handoff_semantics (j : HttpServerJob) :
    (j.isDetached = false →
      JobEffect.finishAsyncJob ∉ j.cleanup.effects ∧
      (∀ t h, j.task = some t → j.handler = some h →
        j.cleanup.job.handler = none ∧
        j.cleanup.effects.take 2 = [JobEffect.setHandler h, JobEffect.signal]) ∧
      (j.task = none →
        (∀ h', JobEffect.setHandler h' ∉ j.cleanup.effects) ∧
        JobEffect.signal ∉ j.cleanup.effects ∧
        j.cleanup.job.handler = j.handler ∧
        (∀ h, j.handler = some h →
          if j.cleanup.deleted then
            JobEffect.releaseHandler h ∈ j.cleanup.effects
          else
            j.cleanup.job.destruct = [JobEffect.releaseHandler h]))) ∧
    (j.isDetached = true →
      JobEffect.finishAsyncJob ∈ j.cleanup.effects ∧
      (∀ h', JobEffect.setHandler h' ∉ j.cleanup.effects) ∧
      JobEffect.signal ∉ j.cleanup.effects ∧
      j.cleanup.job.task = j.task) := by
  unfold HttpServerJob.cleanup HttpServerJob.dropRef HttpServerJob.destruct
  constructor
  · intro hdet
    simp only [hdet, Bool.false_eq_true, if_false, if_neg]
    refine ⟨?_, ?_, ?_⟩
    · cases htask : j.task with
      | some t =>
          cases hh : j.handler with
          | some h => by_cases hrc : j.refCount - 1 = 0 <;> simp [htask, hh, hrc]
          | none => by_cases hrc : j.refCount - 1 = 0 <;> simp [htask, hh, hrc]
      | none =>
          cases hh : j.handler <;>
            by_cases hrc : j.refCount - 1 = 0 <;> simp [htask, hh, hrc]
    · intro t h htask hh
      by_cases hrc : j.refCount - 1 = 0 <;> simp [htask, hh, hrc]
    · intro htask
      cases hh : j.handler with
      | some h => by_cases hrc : j.refCount - 1 = 0 <;> simp [htask, hh, hrc]
      | none => by_cases hrc : j.refCount - 1 = 0 <;> simp [htask, hh, hrc]
  · intro hdet
    simp only [hdet, if_true]
    by_cases hrc : j.refCount - 1 = 0 <;>
      cases hh : j.handler <;> simp [hrc, hh]

/-- Witness for C1 at concrete jobs: a fresh non-detached job with handler 5
and task 7 hands the handler off and signals; a fresh non-detached job whose
task was already nulled keeps its handler for the destructor; a fresh
detached job publishes to the AsyncJobManager. -/
theorem cleanup_handoff_semantics_witness :
    ((mkHttpServerJob 5 (some 7)).cleanup.job.handler = none ∧
     (mkHttpServerJob 5 (some 7)).cleanup.effects.take 2 =
       [JobEffect.setHandler 5, JobEffect.signal]) ∧
    ({ mkHttpServerJob 5 (some 7) with task := none }).cleanup.job.handler =
      some 5 ∧
    JobEffect.finishAsyncJob ∈ (mkHttpServerJob 5 none).cleanup.effects :=
  ⟨((cleanup_handoff_semantics (mkHttpServerJob 5 (some 7))).1
      (by decide)).2.1 7 5 (by decide) (by decide),
   ((((cleanup_handoff_semantics
        ({ mkHttpServerJob 5 (some 7) with task := none })).1
      (by decide)).2.2 (by decide)).2.2).1,
   ((cleanup_handoff_semantics (mkHttpServerJob 5 none)).2 (by decide)).1⟩

/-- C2: Each of `cleanup` and `beginShutdown` decrements the reference count
by exactly one and deletes the job exactly when the count reaches zero; a
non-detached job (count 2 from the constructor) survives the first of the two
calls in either order and is deleted by the second, while a detached job
(count 1) is deleted by `cleanup` alone. -/
theorem refcount_deletion_discipline (h t : Nat) :
    (∀ j : HttpServerJob,
      j.cleanup.job.refCount = j.refCount - 1 ∧
      j.beginShutdown.job.refCount = j.refCount - 1 ∧
      (j.cleanup.deleted = true ↔ j.cleanup.job.refCount = 0) ∧
      (j.beginShutdown.deleted = true ↔ j.beginShutdown.job.refCount = 0)) ∧
    ((mkHttpServerJob h (some t)).cleanup.deleted = false ∧
      (mkHttpServerJob h (some t)).cleanup.job.beginShutdown.deleted = true) ∧
    ((mkHttpServerJob h (some t)).beginShutdown.deleted = false ∧
      (mkHttpServerJob h (some t)).beginShutdown.job.cleanup.deleted = true) ∧
    (mkHttpServerJob h none).cleanup.deleted = true := by
  refine ⟨fun j => ?_, ?_, ?_, ?_⟩
  · unfold HttpServerJob.cleanup HttpServerJob.beginShutdown
      HttpServerJob.dropRef
    by_cases hrc : j.refCount - 1 = 0 <;>
      by_cases hdet : j.isDetached <;>
        cases htask : j.task <;> simp [hrc, hdet, htask]
  · simp [mkHttpServerJob, HttpServerJob.cleanup, HttpServerJob.beginShutdown,
          HttpServerJob.dropRef]
  · simp [mkHttpServerJob, HttpServerJob.cleanup, HttpServerJob.beginShutdown,
          HttpServerJob.dropRef]
  · simp [mkHttpServerJob, HttpServerJob.cleanup, HttpServerJob.dropRef]

/-- C4: The constructor fixes the detached flag and the initial reference
count from its task argument — detached with count 1 exactly when the task
pointer is null, otherwise not detached with count 2 — and neither `cleanup`
nor `beginShutdown` (the only operations that rewrite job state; `work` and
`cancel` only call into the handler) ever changes the detached flag. -/
theorem detached_flag_fixed_at_construction (h : Nat) (t : Option Nat) :
    ((mkHttpServerJob h t).isDetached = true ↔ t = none) ∧
    (mkHttpServerJob h t).refCount = (if t = none then 1 else 2) ∧
    (∀ j : HttpServerJob,
      j.cleanup.job.isDetached = j.isDetached ∧
      j.beginShutdown.job.isDetached = j.isDetached) := by
  refine ⟨?_, ?_, fun j => ?_⟩
  · simp [mkHttpServerJob]
  · simp [mkHttpServerJob]
  · unfold HttpServerJob.cleanup HttpServerJob.beginShutdown
      HttpServerJob.dropRef
    by_cases hrc : j.refCount - 1 = 0 <;>
      by_cases hdet : j.isDetached <;>
        cases htask : j.task <;> simp [hrc, hdet, htask]

/-- C5: In `work`, when the handler actually runs (the job is detached or its
task pointer is still set), `finalizeExecute` is invoked exactly once both
when `execute` throws — in which case the exception still propagates out of
`work` — and when it returns normally; and a non-detached job whose task
pointer is already null returns `JOB_DONE` without calling `prepareExecute`
or `execute`. -/
theorem work_finalize_and_early_return (j : HttpServerJob)
    (outcome : Except Unit JobStatus) :
    (¬ (j.isDetached = false ∧ j.task = none) →
      (j.work outcome).events =
        [WorkEvent.wsPush, WorkEvent.prepareExecute, WorkEvent.execute,
         WorkEvent.finalizeExecute, WorkEvent.wsPop] ∧
      (j.work outcome).events.count WorkEvent.finalizeExecute = 1 ∧
      (∀ e, outcome = Except.error e →
        (j.work outcome).result = Except.error e) ∧
      (∀ s, outcome = Except.ok s → (j.work outcome).result = Except.ok s)) ∧
    (j.isDetached = false ∧ j.task = none →
      (j.work outcome).result = Except.ok JobStatus.done ∧
      WorkEvent.prepareExecute ∉ (j.work outcome).events ∧
      WorkEvent.execute ∉ (j.work outcome).events) := by
  constructor
  · intro hrun
    cases outcome <;> simp [HttpServerJob.work, hrun]
  · intro hearly
    simp [HttpServerJob.work, hearly.1, hearly.2]

/-- Witness for C5: a detached job with a throwing `execute` still finalizes
and propagates the exception; a non-detached job with a nulled task returns
`JOB_DONE` without preparing or executing. -/
theorem work_finalize_and_early_return_witness :
    ((mkHttpServerJob 5 none).work (Except.error ())).events.count
        WorkEvent.finalizeExecute = 1 ∧
    ((mkHttpServerJob 5 none).work (Except.error ())).result =
      Except.error () ∧
    (({ mkHttpServerJob 5 (some 7) with task := none }).work
        (Except.ok JobStatus.done)).result = Except.ok JobStatus.done :=
  ⟨((work_finalize_and_early_return (mkHttpServerJob 5 none)
      (Except.error ())).1 (by decide)).2.1,
   (((work_finalize_and_early_return (mkHttpServerJob 5 none)
      (Except.error ())).1 (by decide)).2.2).1 () rfl,
   ((work_finalize_and_early_return
      ({ mkHttpServerJob 5 (some 7) with task := none })
      (Except.ok JobStatus.done)).2 (by decide)).1⟩

/-- The interleaving trace refuting C3: from the initial race state, the
shutdown thread loads the flag as false and moves to the nulling statement;
only then does the cleanup thread set the flag; the shutdown thread's nulling
statement then fires inside cleanup's flagged region. -/
def raceS0 : JobRaceState := jobRaceInit 0 1

/-- Trace state after the spin loaded `_isInCleanup` as false. -/
def raceS1 : JobRaceState := { raceS0 with pcB := ShutdownPc.nullTask }

/-- Trace state after cleanup executed `_isInCleanup.store(true)`. -/
def raceS2 : JobRaceState :=
  { raceS1 with isInCleanup := true, pcC := CleanupPc.checkTask }

/-- Trace state after `beginShutdown` executed `_task = nullptr`. -/
def raceS3 : JobRaceState :=
  { raceS2 with task := none, pcB := ShutdownPc.finished }

/-- C3 counterexample: a reachable interleaving of the job's step relation in
which `beginShutdown` nulls the task pointer between `cleanup` setting the
cleanup-in-progress flag and `cleanup` clearing it.  `beginShutdown`'s final
flag load (raceS0 → raceS1) happens before `cleanup` sets the flag
(raceS1 → raceS2), after which the nulling statement (raceS2 → raceS3)
executes while the flag is true and cleanup's task check is still pending —
so cleanup's handoff can then observe a pointer nulled mid-handoff. -/
theorem beginShutdown_race_counterexample :
    JobStep raceS0 raceS1 ∧ JobStep raceS1 raceS2 ∧ JobStep raceS2 raceS3 ∧
    JobReachable raceS0 raceS3 ∧
    raceS2.isInCleanup = true ∧ raceS2.pcC = CleanupPc.checkTask ∧
    raceS2.task = some 0 ∧
    raceS3.isInCleanup = true ∧ raceS3.pcC = CleanupPc.checkTask ∧
    raceS3.task = none := by
  have h01 : JobStep raceS0 raceS1 := by decide
  have h12 : JobStep raceS1 raceS2 := by decide
  have h23 : JobStep raceS2 raceS3 := by decide
  exact ⟨h01, h12, h23,
    Relation.ReflTransGen.head h01
      (Relation.ReflTransGen.head h12 (Relation.ReflTransGen.single h23)),
    by decide, by decide, by decide, by decide, by decide, by decide⟩

/-- How any single step moves the `beginShutdown` program counter: a cleanup
step leaves it untouched; the spin advances to the nulling statement exactly
on a step whose flag load returned false; the nulling statement runs to
completion. -/
theorem jobRaceNext_pcB (s s' : JobRaceState) (hstep : s' ∈ jobRaceNext s) :
    s'.pcB = s.pcB ∨
    (s.pcB = ShutdownPc.spin ∧ s.isInCleanup = false ∧
      s'.pcB = ShutdownPc.nullTask) ∨
    (s.pcB = ShutdownPc.nullTask ∧ s'.pcB = ShutdownPc.finished) := by
  unfold jobRaceNext at hstep
  rcases List.mem_append.mp hstep with hc | hB
  · left
    cases hpcC : s.pcC <;> rw [hpcC] at hc
    case setFlag => rw [List.mem_singleton] at hc; subst hc; rfl
    case checkTask =>
      by_cases ht : s.task = none
      · rw [if_pos ht, List.mem_singleton] at hc; subst hc; rfl
      · rw [if_neg ht, List.mem_singleton] at hc; subst hc; rfl
    case setHandler => rw [List.mem_singleton] at hc; subst hc; rfl
    case signal => rw [List.mem_singleton] at hc; subst hc; rfl
    case clearFlag => rw [List.mem_singleton] at hc; subst hc; rfl
    case finished => exact absurd hc (List.not_mem_nil s')
  · cases hpcB : s.pcB <;> rw [hpcB] at hB
    case spin =>
      by_cases hflag : s.isInCleanup
      · rw [if_pos hflag, List.mem_singleton] at hB
        subst hB
        left; exact hpcB
      · rw [if_neg hflag, List.mem_singleton] at hB
        subst hB
        right; left
        exact ⟨rfl, by simpa using hflag, rfl⟩
    case nullTask =>
      rw [List.mem_singleton] at hB
      subst hB
      right; right
      exact ⟨rfl, rfl⟩
    case finished => exact absurd hB (List.not_mem_nil s')

/-- C3 amended: `beginShutdown` leaves its spin for the nulling statement
only on a step in which the cleanup-in-progress flag is false, and while the
flag is set an observing spin step stays in the spin — but the flag load and
the nulling are separate steps, so (see the counterexample) `cleanup` can set
the flag between them and the task pointer can be nulled inside the flagged
region. -/
theorem beginShutdown_spin_observes_flag (s s' : JobRaceState)
    (hstep : JobStep s s') :
    (s.pcB = ShutdownPc.spin → s'.pcB = ShutdownPc.nullTask →
      s.isInCleanup = false) ∧
    (s.pcB = ShutdownPc.spin → s.isInCleanup = true →
      s'.pcB = ShutdownPc.spin) := by
  have h := jobRaceNext_pcB s s' hstep
  constructor
  · intro hb hb'
    rcases h with h | ⟨_, hf, _⟩ | ⟨hn, _⟩
    · rw [hb', hb] at h
      exact absurd h (by simp)
    · exact hf
    · rw [hn] at hb
      exact absurd hb (by simp)
  · intro hb hflag
    rcases h with h | ⟨_, hf, _⟩ | ⟨hn, _⟩
    · rw [h, hb]
    · rw [hf] at hflag
      exact absurd hflag (by simp)
    · rw [hn] at hb
      exact absurd hb (by simp)

/-- Witness for the amended C3: the spin-exit step of the counterexample
trace indeed observes the flag false, and a spin step taken while cleanup is
inside its flagged region stays in the spin. -/
theorem beginShutdown_spin_observes_flag_witness :
    raceS0.isInCleanup = false ∧
    ({ raceS2 with pcB := ShutdownPc.spin } : JobRaceState).pcB =
      ShutdownPc.spin := by
  constructor
  · exact (beginShutdown_spin_observes_flag raceS0 raceS1 (by decide)).1
      (by decide) (by decide)
  · exact (beginShutdown_spin_observes_flag
      { raceS2 with pcB := ShutdownPc.spin }
      { raceS2 with pcB := ShutdownPc.spin } (by decide)).2 rfl (by decide)

/-- C6: `SchedulerThread::registerTask` returns false and does nothing when
the thread has already stopped; when called from the loop's own thread it
mounts the task inline — incrementing the task count on success, cleaning up
and deleting the task on setup failure — and returns the setup result;
otherwise it enqueues a `{SETUP, scheduler, task}` work item, sets the
has-work flag, wakes the loop and returns true. -/
theorem registerTask_behaviour (st : SchedulerThread.State)
    (sameThread setupOk : Bool) (sch task : Nat) :
    (st.stopped = true →
      SchedulerThread.registerTask st sameThread setupOk sch task =
        { state := st, returned := false, effects := [] }) ∧
    (st.stopped = false → sameThread = true → setupOk = true →
      SchedulerThread.registerTask st sameThread setupOk sch task =
        { state := { st with numberTasks := st.numberTasks + 1 }
          returned := true
          effects := [SchedulerThread.Effect.setupTask task] }) ∧
    (st.stopped = false → sameThread = true → setupOk = false →
      SchedulerThread.registerTask st sameThread setupOk sch task =
        { state := st, returned := false
          effects := [SchedulerThread.Effect.setupTask task,
                      SchedulerThread.Effect.cleanupTask task,
                      SchedulerThread.Effect.deleteTask task] }) ∧
    (st.stopped = false → sameThread = false →
      SchedulerThread.registerTask st sameThread setupOk sch task =
        { state := { st with
                      queue := st.queue ++
                        [⟨SchedulerThread.WorkKind.setup, some sch, task⟩]
                      hasWork := true }
          returned := true
          effects := [SchedulerThread.Effect.wakeupLoop] }) := by
  refine ⟨fun hstop => ?_, fun hstop hsame hok => ?_,
          fun hstop hsame hok => ?_, fun hstop hsame => ?_⟩ <;>
    simp [SchedulerThread.registerTask, hstop, *]

/-- Witness for C6 on a concrete state: a stopped thread refuses; a
same-thread successful setup bumps the task count; a cross-thread call
enqueues a SETUP item and wakes the loop. -/
theorem registerTask_behaviour_witness :
    (SchedulerThread.registerTask ⟨true, [], false, 0⟩ true true 1 2 =
      { state := ⟨true, [], false, 0⟩, returned := false, effects := [] }) ∧
    (SchedulerThread.registerTask ⟨false, [], false, 0⟩ true true 1 2 =
      { state := ⟨false, [], false, 1⟩, returned := true
        effects := [SchedulerThread.Effect.setupTask 2] }) ∧
    (SchedulerThread.registerTask ⟨false, [], false, 0⟩ false true 1 2 =
      { state := ⟨false, [⟨SchedulerThread.WorkKind.setup, some 1, 2⟩],
                  true, 0⟩
        returned := true
        effects := [SchedulerThread.Effect.wakeupLoop] }) :=
  ⟨(registerTask_behaviour ⟨true, [], false, 0⟩ true true 1 2).1 rfl,
   (registerTask_behaviour ⟨false, [], false, 0⟩ true true 1 2).2.1
      rfl rfl rfl,
   (registerTask_behaviour ⟨false, [], false, 0⟩ false true 1 2).2.2.2
      rfl rfl⟩

/-- C7: In the scheduler run loop, a poll exception caught while the stopping
flag is false is logged and the iteration retried (the loop goes on exactly
as on the remaining observations, one iteration deeper); a poll exception
caught while stopping propagates and terminates the loop; and as long as
every stopping observation is false the loop never ends by propagation — it
iterates through all supplied observations. -/
theorem runLoop_poll_exception (rest : List (Bool × Bool × Bool)) :
    (SchedulerThread.runLoop ((false, true, false) :: rest) =
      ((SchedulerThread.runLoop rest).1,
       (SchedulerThread.runLoop rest).2 + 1)) ∧
    (SchedulerThread.runLoop ((false, true, true) :: rest) =
      (SchedulerThread.RunEnd.exnPropagated, 0)) ∧
    (∀ obs : List (Bool × Bool × Bool),
      (∀ x ∈ obs, x.1 = false ∧ x.2.2 = false) →
      SchedulerThread.runLoop obs = (SchedulerThread.RunEnd.fuelOut,
        obs.length)) := by
  refine ⟨by simp [SchedulerThread.runLoop], by simp [SchedulerThread.runLoop],
          fun obs hobs => ?_⟩
  induction obs with
  | nil => simp [SchedulerThread.runLoop]
  | cons x xs ih =>
      obtain ⟨h1, h2⟩ := hobs x (List.mem_cons_self x xs)
      obtain ⟨xa, xb, xc⟩ := x
      simp only at h1 h2
      subst h1; subst h2
      have := ih (fun y hy => hobs y (List.mem_cons_of_mem _ hy))
      cases xb <;> simp [SchedulerThread.runLoop, this]

/-- Witness for C7: three iterations whose polls all raise with the stopping
flag false run to the end of the observations; the same trace with the
stopping flag set at the second catch propagates after one completed
iteration. -/
theorem runLoop_poll_exception_witness :
    SchedulerThread.runLoop
      [(false, true, false), (false, true, false), (false, true, false)] =
      (SchedulerThread.RunEnd.fuelOut, 3) ∧
    SchedulerThread.runLoop [(false, true, false), (false, true, true)] =
      (SchedulerThread.RunEnd.exnPropagated, 1) := by
  constructor
  · exact (runLoop_poll_exception []).2.2
      [(false, true, false), (false, true, false), (false, true, false)]
      (by decide)
  · have h2 := ((runLoop_poll_exception []).2.1 : SchedulerThread.runLoop
      [(false, true, true)] = (SchedulerThread.RunEnd.exnPropagated, 0))
    have h1 := (runLoop_poll_exception [(false, true, true)]).1
    rw [h1, h2]

/-- C8: on a single thread, `popHandler h` immediately after `pushHandler h`
passes both `TRI_ASSERT`s (the deactivated description is non-null and holds
exactly `h`) and restores the thread's current work description — the whole
stack of descriptions — to exactly its value before the push: the per-thread
WorkDescription stack is strictly LIFO. -/
theorem pushHandler_popHandler_roundtrip (st : WorkMonitor.ThreadState)
    (h : Nat) :
    (WorkMonitor.popHandler (WorkMonitor.pushHandler st h) h).assertionsPassed
      = true ∧
    (WorkMonitor.popHandler (WorkMonitor.pushHandler st h) h).state.stack =
      st.stack := by
  simp [WorkMonitor.popHandler, WorkMonitor.pushHandler,
        WorkMonitor.createWorkDescription]

/-- C10: `popHandler` clears the `_destroy` flag of the description it hands
to the reclamation queue, so the monitor's sweep invokes no handler deleter
on it and only recycles the description; the descriptions freed by
`destroyHandler` and by `releaseHandler` keep the flag set from creation, so
the sweep invokes the handler deleter on them exactly once.  Whether the
sweep deletes a handler is therefore decided solely by which of the three
operations freed its description. -/
theorem popHandler_never_deletes_handler (st : WorkMonitor.ThreadState)
    (h : Nat) :
    (∃ d, (WorkMonitor.popHandler (WorkMonitor.pushHandler st h) h).state.freeable
            = st.freeable ++ [d] ∧
          d.destroy = false ∧ d.handler = some h ∧
          WorkMonitor.deleteWorkDescription d = none ∧
          WorkMonitor.sweep [d] = []) ∧
    (∃ d, (WorkMonitor.destroyHandler (WorkMonitor.pushHandler st h) h).state.freeable
            = st.freeable ++ [d] ∧
          d.destroy = true ∧ d.handler = some h ∧
          WorkMonitor.deleteWorkDescription d = some h ∧
          WorkMonitor.sweep [d] = [h]) ∧
    (∃ d, (WorkMonitor.releaseHandler st h).freeable = st.freeable ++ [d] ∧
          d.destroy = true ∧ d.handler = some h ∧
          WorkMonitor.deleteWorkDescription d = some h ∧
          WorkMonitor.sweep [d] = [h]) := by
  refine ⟨⟨⟨WorkMonitor.WorkType.handler, false, some h⟩, ?_⟩,
          ⟨⟨WorkMonitor.WorkType.handler, true, some h⟩, ?_⟩,
          ⟨⟨WorkMonitor.WorkType.handler, true, some h⟩, ?_⟩⟩ <;>
    simp [WorkMonitor.popHandler, WorkMonitor.destroyHandler,
          WorkMonitor.releaseHandler, WorkMonitor.pushHandler,
          WorkMonitor.createWorkDescription, WorkMonitor.deleteWorkDescription,
          WorkMonitor.sweep]

/-- C9: a request to the debug helper with parameter `sleep=0` produces a 200
response whose JSON body is the object with exactly the fields
`server = "arango"`, `sleep = 0`, `block = false` and `version` equal to the
server version string (the handler builds them in the order server, version,
sleep, block). -/
theorem debugHelper_sleep0_response (version : String) :
    (RestDebugHelper.execute [("sleep", "0")] version).response =
      { status := 200
        body := [("server", RestDebugHelper.JsonValue.str "arango"),
                 ("version", RestDebugHelper.JsonValue.str version),
                 ("sleep", RestDebugHelper.JsonValue.num 0),
                 ("block", RestDebugHelper.JsonValue.bool false)] } ∧
    (RestDebugHelper.execute [("sleep", "0")] version).handlerDone = true := by
  constructor
  · have hd : RestDebugHelper.doubleDecimal "0" = 0 := rfl
    have hlook : (List.lookup "block" [("sleep", "0")] : Option String) =
        none := rfl
    have hs : RestDebugHelper.ratToULong
        (RestDebugHelper.doubleDecimal "0" * 1000000) = 0 := by
      rw [hd, zero_mul]
      rfl
    simp [RestDebugHelper.execute, RestDebugHelper.requestValue, hlook, hs]
  · rfl

end ArangoModel
